import Mathlib

/-!
Verification of the WhatsApp Admin Panel backend (src/main.py): a FastAPI
service over a SQLite record store, mirrored into a Google spreadsheet.

Shallow embedding conventions:
  * A spreadsheet is `SheetData = List Row` (header row first, when present);
    cells are strings.
  * Python exceptions are values of `PyErr`; a `try` body is an
    `Except PyErr _` computation and the `except` clauses pattern-match on it.
  * A handler returns `HResp β`: a normal body, a raised `HTTPException`, or
    an unhandled exception (which FastAPI turns into a generic 500).
  * Calls to the external spreadsheet service are passed in as oracles
    (`Except _ _` arguments): `.ok` means the remote call succeeded, `.error`
    means it raised.
-/

namespace AdminPanel

abbrev Row := List String

abbrev SheetData := List Row

/-- Python exception values relevant to the handlers. -/
inductive PyErr where
  | valueError (msg : String)
  | nameError (n : String)
  | httpException (code : Nat) (detail : String)
  | indexError
  | other (msg : String)
deriving Repr, DecidableEq

/-- Python `str(e)` for the exceptions above. `str` of a FastAPI
`HTTPException` renders as `"<code>: <detail>"`. -/
def pyErrStr : PyErr → String
  | PyErr.valueError m => m
  | PyErr.nameError n => "name \x27" ++ n ++ "\x27 is not defined"
  | PyErr.httpException c d => toString c ++ ": " ++ d
  | PyErr.indexError => "list index out of range"
  | PyErr.other m => m

/-- Outcome of one request: a normal (transport-success) body, a raised
`HTTPException(code, detail)`, or an exception nobody caught. -/
inductive HResp (β : Type) where
  | body (b : β)
  | httpEx (code : Nat) (detail : String)
  | unhandled (msg : String)
deriving Repr, DecidableEq

/-- `sheet.append_row(values)`: adds one row at the end (src/main.py:159, 297). -/
def appendRow (s : SheetData) (r : Row) : SheetData := s ++ [r]

/-- User record (src/main.py:72-80, table `User`). -/
structure UserRec where
  id : Nat
  name : String
  email : String
  contact : String
  outlet_role : String
  role : String
  user_status : String
deriving Repr, DecidableEq

/-- The `User` table of the record store. `nextId` is the identifier the
engine will assign to the next inserted row. Modelled from the spec: the
storage engine (SQLAlchemy over SQLite) is not in src/; spec section 4.1 and
section 8 specify that `create` assigns a strictly increasing, store-unique
identifier, so `nextId` only ever grows and is never reused after a delete. -/
structure UserStore where
  users : List UserRec
  nextId : Nat
deriving Repr, DecidableEq

def initialUserStore : UserStore := { users := [], nextId := 1 }

/-- `db.add(user); db.commit(); db.refresh(user)` for a new `User`
(src/main.py:147-157). `User.email` is declared unique (src/main.py:76), so
inserting a duplicate email raises the store constraint error instead of
committing. Modelled from the spec for the engine part: identifier assignment
and the uniqueness check happen inside the store engine, not in src/. -/
def storeCreateUser (db : UserStore)
    (name email contact outlet_role role user_status : String) :
    Except String (UserRec × UserStore) :=
  if db.users.any (fun v => v.email == email) then
    Except.error "UNIQUE constraint failed: User.email"
  else
    let user : UserRec :=
      { id := db.nextId, name := name, email := email, contact := contact,
        outlet_role := outlet_role, role := role, user_status := user_status }
    Except.ok (user, { users := db.users ++ [user], nextId := db.nextId + 1 })

/-- Body shape of the user CRUD handlers:
`{"status": ..., "message": ..., "results": user?}`. -/
structure UserBody where
  status : String
  message : String
  results : Option UserRec
deriving Repr, DecidableEq

/-- Embeds `POST /add_new_users` (src/main.py:137-162, `create_user`).
The store write commits first; `sheet.append_row` (the `mirror` oracle) is
not wrapped in any try/except, so a mirror error escapes the handler after
the commit, with no rollback. -/
def create_user (db : UserStore) (sheetD : SheetData) (mirror : Except String Unit)
    (name email contact outlet_role role user_status : String) :
    HResp UserBody × UserStore × SheetData :=
  match storeCreateUser db name email contact outlet_role role user_status with
  | Except.error e => (HResp.unhandled e, db, sheetD)
  | Except.ok (user, db2) =>
    match mirror with
    | Except.error e => (HResp.unhandled e, db2, sheetD)
    | Except.ok _ =>
        (HResp.body { status := "True", message := "User added", results := some user },
         db2,
         appendRow sheetD [toString user.id, user.name, user.email, user.contact,
                           user.outlet_role, user.role, user.user_status])

/-- Embeds `DELETE /delete_user/{id}` (src/main.py:200-207, `delete_user`).
The handler never touches the spreadsheet mirror. -/
def delete_user (db : UserStore) (sheetD : SheetData) (id : Nat) :
    HResp UserBody × UserStore × SheetData :=
  match db.users.find? (fun u => u.id == id) with
  | none =>
      (HResp.body { status := "False", message := "User not found", results := none },
       db, sheetD)
  | some _ =>
      (HResp.body { status := "True",
                    message := "User \x27" ++ toString id ++ "\x27 deleted",
                    results := none },
       { users := db.users.filter (fun v => !(v.id == id)), nextId := db.nextId },
       sheetD)

/-- `str(row.get("id"))` on a record produced by `sheet.get_all_records()`
(src/main.py:191): the value under the `"id"` header, or `"None"` when the
sheet has no `"id"` header at all. -/
def recordIdStr (headers row : Row) : String :=
  match headers.findIdx? (fun h => h == "id") with
  | some i => row.getD i ""
  | none => "None"

/-- The linear scan of src/main.py:190-196: enumerate the data records
starting at sheet row 2 and return the 1-based sheet row index of the first
record whose `"id"` field (as a string) equals `target`. -/
def scanRows (headers : Row) (rows : List Row) (target : String) (idx : Nat) :
    Option Nat :=
  match rows with
  | [] => none
  | r :: rs =>
      if recordIdStr headers r == target then some idx
      else scanRows headers rs target (idx + 1)

/-- Embeds `PUT /update_user/{id}` (src/main.py:165-197, `update_user`).
After the store commit the handler fetches all mirror records and linearly
scans for a matching `"id"`; on a match it overwrites that row range, and on
no match it silently does nothing. The unique-email constraint of the store
fires on commit when another record already holds the new email. -/
def update_user (db : UserStore) (sheetD : SheetData) (id : Nat)
    (name email contact outlet_role role user_status : String) :
    HResp UserBody × UserStore × SheetData :=
  match db.users.find? (fun u => u.id == id) with
  | none =>
      (HResp.body { status := "False", message := "User not found", results := none },
       db, sheetD)
  | some u0 =>
    if db.users.any (fun v => !(v.id == u0.id) && v.email == email) then
      (HResp.unhandled "UNIQUE constraint failed: User.email", db, sheetD)
    else
      let u : UserRec :=
        { u0 with name := name, email := email, contact := contact,
                  outlet_role := outlet_role, role := role, user_status := user_status }
      let db2 : UserStore :=
        { users := db.users.map (fun v => if v.id == id then u else v),
          nextId := db.nextId }
      let newRow : Row :=
        [toString u.id, u.name, u.email, u.contact, u.outlet_role, u.role, u.user_status]
      let sheet2 :=
        match scanRows (sheetD.headD []) (sheetD.drop 1) (toString u.id) 2 with
        | some idx => sheetD.set (idx - 1) newRow
        | none => sheetD
      (HResp.body { status := "True", message := "User updated", results := some u },
       db2, sheet2)

/-- Admin record (src/main.py:66-70): plaintext credentials. -/
structure AdminRec where
  email : String
  password : String
deriving Repr, DecidableEq

/-- Modelled from the spec: token issuance (`jose.jwt.encode`,
src/main.py:107-111) is outside src/ and is specified only as issuing a
short-lived signed token; modelled as a nonempty encoding of the subject. -/
def create_access_token (sub : String) : String := "jwt." ++ sub ++ ".HS256"

/-- Body of `POST /Login`: both branches are normal transport-success
responses (a plain dict and a default-status `JSONResponse`). -/
structure LoginBody where
  status : String
  message : String
  access_token : Option String
  token_type : Option String
deriving Repr, DecidableEq

/-- Embeds `POST /Login` (src/main.py:129-135, `login`): exact-equality
lookup of the submitted credentials among the stored admin rows; mismatch
returns a failure body, not an HTTP error. -/
def login (admins : List AdminRec) (email password : String) : LoginBody :=
  match admins.find? (fun a => a.email == email && a.password == password) with
  | none =>
      { status := "False", message := "Invalid credentials",
        access_token := none, token_type := none }
  | some a =>
      { status := "True", message := "Login successful",
        access_token := some (create_access_token a.email), token_type := some "bearer" }

/-! ### CSV export reading -/

/-- Python `str.lower()` (ASCII range, which is all these sheets hold). -/
def pyLowerChar (c : Char) : Char :=
  if 'A' ≤ c && c ≤ 'Z' then Char.ofNat (c.toNat + 32) else c

def pyLower (s : String) : String := ⟨s.data.map pyLowerChar⟩

def isSpaceChar (c : Char) : Bool :=
  c == ' ' || c == '\t' || c == '\n' || c == '\r'

/-- Python `str.strip()`: drop leading and trailing whitespace. -/
def pyStrip (s : String) : String :=
  ⟨((s.data.dropWhile isSpaceChar).reverse.dropWhile isSpaceChar).reverse⟩

def SHEET_ID : String := "1WX44a8gOrTPs4nmqjfSCAwn99QtFBiy72JeyLDNquMQ"

/-- The static logical-name to gid mapping (src/main.py:42-44). -/
def GID_MAP : List (String × String) :=
  [("cancellations", "1689593326"), ("upcoming", "1840935840"), ("past", "304133303"),
   ("schedule", "1739684591"), ("sheet1", "0")]

/-- Embeds `get_csv_url` (src/main.py:47-51): unmapped (or falsy) gid raises
`ValueError`; note the truthiness test `if not gid`, so a missing key and an
empty-string gid behave alike. -/
def get_csv_url (sheet_name : String) : Except PyErr String :=
  let gid := (GID_MAP.lookup (pyLower sheet_name)).getD ""
  if gid == "" then
    Except.error (PyErr.valueError ("Sheet name \x27" ++ sheet_name ++ "\x27 not found."))
  else
    Except.ok ("https://docs.google.com/spreadsheets/d/" ++ SHEET_ID ++
               "/export?format=csv&gid=" ++ gid)

/-- A fetched CSV document after `csv.DictReader` header splitting: the
header row and the data rows (each padded to the header width). -/
structure CsvTable where
  headers : Row
  rows : List Row
deriving Repr, DecidableEq

/-- `row.get(key, "")` on a `DictReader` record. -/
def csvGet (headers row : Row) (key : String) : String :=
  match headers.findIdx? (fun h => h == key) with
  | some i => row.getD i ""
  | none => ""

/-- Body of `GET /upcoming bookings/{sheet_name}`. -/
structure FetchBody where
  sheet : String
  data : List (List (String × String))
deriving Repr, DecidableEq

/-- Embeds `GET /upcoming bookings/{sheet_name}` (src/main.py:258-269,
`fetch_google_sheet`). `net` is the `requests.get` plus `raise_for_status`
plus parse step as an oracle keyed by URL. `except ValueError` maps the
unknown-sheet error to HTTP 400; every other exception maps to HTTP 500. -/
def fetch_google_sheet (net : String → Except PyErr CsvTable) (sheet_name : String) :
    HResp FetchBody :=
  let r : Except PyErr FetchBody :=
    match get_csv_url sheet_name with
    | Except.error e => Except.error e
    | Except.ok url =>
      match net url with
      | Except.error e => Except.error e
      | Except.ok t =>
          Except.ok { sheet := sheet_name, data := t.rows.map (fun row => t.headers.zip row) }
  match r with
  | Except.ok b => HResp.body b
  | Except.error (PyErr.valueError _) => HResp.httpEx 400 "Invalid sheet name"
  | Except.error e => HResp.httpEx 500 (pyErrStr e)

/-- Body of `GET /api/users/search` on the success path. -/
structure SearchBody where
  status : String
  message : String
  results : Option (List (String × String))
deriving Repr, DecidableEq

/-- The match test written in `search_user_by_email_or_name`
(src/main.py:240-243, unreachable at runtime, see below): case-insensitive
exact full-string equality of the stripped term against the stripped
`Name` or `Email` field. -/
def rowMatches (headers row : Row) (term : String) : Bool :=
  pyLower (pyStrip term) == pyLower (pyStrip (csvGet headers row "Name"))
    || pyLower (pyStrip term) == pyLower (pyStrip (csvGet headers row "Email"))

/-- Embeds `GET /api/users/search` (src/main.py:229-257,
`search_user_by_email_or_name`). Line 237 reads `query.strip().lower()`,
but no name `query` is bound (the parameter is `search`; only the FastAPI
class `Query` is imported), so once the network fetch succeeds the try body
raises `NameError` before any row is examined, and the generic
`except Exception` turns it into an HTTP 500. The loop of lines 239-255
(see `rowMatches`) is dead code. -/
def search_user_by_email_or_name (net : Except PyErr CsvTable) (search : String) :
    HResp SearchBody :=
  let r : Except PyErr SearchBody :=
    match net with
    | Except.error e => Except.error e
    | Except.ok _ => Except.error (PyErr.nameError "query")
  match r with
  | Except.ok b => HResp.body b
  | Except.error e => HResp.httpEx 500 (pyErrStr e)

/-! ### Standby workers -/

/-- Splitting a character list on the hyphen separator
(the `s.split("-")` shape used by `%Y-%m-%d` parsing). -/
def splitOnHyphen (cs : List Char) : List (List Char) :=
  match cs with
  | [] => [[]]
  | c :: rest =>
    let r := splitOnHyphen rest
    if c == '-' then [] :: r
    else
      match r with
      | [] => [[c]]
      | g :: gs => (c :: g) :: gs

/-- Decimal digits to a natural number. -/
def digitsToNat (cs : List Char) : Nat :=
  cs.foldl (fun acc c => acc * 10 + (c.toNat - 48)) 0

def isLeapYear (y : Nat) : Bool :=
  (y % 4 == 0 && y % 100 != 0) || (y % 400 == 0)

def daysInMonth (y m : Nat) : Nat :=
  if m == 2 then (if isLeapYear y then 29 else 28)
  else if m == 4 || m == 6 || m == 9 || m == 11 then 30
  else 31

/-- All characters of the string are ASCII (code points below 128). -/
def isAsciiStr (s : String) : Bool := s.data.all (fun c => c.toNat < 128)

/-- `datetime.strptime(s, "%Y-%m-%d").date()` (src/main.py:281). CPython
compiles the format into the anchored regex
`(?P<Y>\d\d\d\d)\-(?P<m>1[0-2]|0[1-9]|[1-9])\-(?P<d>3[01]|[12]\d|0[1-9]|[1-9])`,
requires it to consume the whole string, and `datetime.date` then rejects
year 0 and day values beyond the month's calendar length. For ASCII input
this is exactly: a four-digit year with value at least 1, a one- or
two-digit month with value 1-12, a one- or two-digit day with a
calendar-valid value, joined by single hyphens. The two `\d` classes also
match non-ASCII Unicode decimal digits, a set that depends on the
interpreter's Unicode tables; this embedding models the ASCII behavior, and
the theorem that quantifies over rejected dates restricts the submitted
string to ASCII (a successful parse forces ASCII by itself, every non-hyphen
character having passed the ASCII digit test). -/
def parseDateYMD (s : String) : Option (Nat × Nat × Nat) :=
  match splitOnHyphen s.data with
  | [y, m, d] =>
    if y.length == 4 && y.all Char.isDigit
        && 1 ≤ m.length && m.length ≤ 2 && m.all Char.isDigit
        && 1 ≤ d.length && d.length ≤ 2 && d.all Char.isDigit then
      let yn := digitsToNat y
      let mn := digitsToNat m
      let dn := digitsToNat d
      if 1 ≤ yn && 1 ≤ mn && mn ≤ 12 && 1 ≤ dn && dn ≤ daysInMonth yn mn then
        some (yn, mn, dn)
      else none
    else none
  | _ => none

def pad2 (n : Nat) : String := if n < 10 then "0" ++ toString n else toString n

def pad4 (n : Nat) : String :=
  if n < 10 then "000" ++ toString n
  else if n < 100 then "00" ++ toString n
  else if n < 1000 then "0" ++ toString n
  else toString n

/-- `date.isoformat()`: zero-padded `YYYY-MM-DD`. -/
def isoDate : Nat × Nat × Nat → String
  | (y, m, d) => pad4 y ++ "-" ++ pad2 m ++ "-" ++ pad2 d

/-- StandbyWorker record (src/main.py:93-103): no uniqueness constraint. -/
structure StandbyWorkerRec where
  id : Nat
  name : String
  contact : String
  roles : String
  outlet : String
  user_status : String
  days_available : Int
  availability_date : Nat × Nat × Nat
deriving Repr, DecidableEq

/-- The `standby_workers` table. Identifier assignment modelled from the
spec like `UserStore.nextId`. -/
structure StandbyStore where
  workers : List StandbyWorkerRec
  nextId : Nat
deriving Repr, DecidableEq

/-- The `results` dict echoed by `POST /standby/add` (src/main.py:305-313):
built from the form inputs plus the assigned id and the iso date. -/
structure StandbyEcho where
  id : Nat
  name : String
  contact : String
  roles : String
  outlet : String
  user_status : String
  days_available : Int
  availability_date : String
deriving Repr, DecidableEq

structure StandbyBody where
  status : String
  message : String
  results : Option StandbyEcho
deriving Repr, DecidableEq

/-- Embeds `POST /standby/add` (src/main.py:277-313, `add_to_standby_form`).
The date is validated before any store write (400 on failure); the store
write commits; then the whole mirror interaction (worksheet open plus
`append_row`, the `mirror` oracle) sits in a `try` whose `except` only
prints, so the handler returns the success body whatever the mirror does. -/
def add_to_standby_form (db : StandbyStore) (sheetD : SheetData)
    (mirror : Except String Unit)
    (name contact roles outlet user_status : String)
    (days_available : Int) (availability_date : String) :
    HResp StandbyBody × StandbyStore × SheetData :=
  match parseDateYMD availability_date with
  | none => (HResp.httpEx 400 "Invalid date format. Use YYYY-MM-DD", db, sheetD)
  | some pd =>
    let worker : StandbyWorkerRec :=
      { id := db.nextId, name := name, contact := contact, roles := roles,
        outlet := outlet, user_status := user_status,
        days_available := days_available, availability_date := pd }
    let db2 : StandbyStore := { workers := db.workers ++ [worker], nextId := db.nextId + 1 }
    let sheet2 :=
      match mirror with
      | Except.ok _ =>
          appendRow sheetD [toString worker.id, name, contact, roles, outlet,
                            user_status, toString days_available, isoDate pd]
      | Except.error _ => sheetD
    (HResp.body { status := "True", message := "Worker added to standby",
                  results := some { id := worker.id, name := name, contact := contact,
                                    roles := roles, outlet := outlet,
                                    user_status := user_status,
                                    days_available := days_available,
                                    availability_date := isoDate pd } },
     db2, sheet2)

structure WorkerBody where
  status : String
  message : String
  results : List (String × String)
deriving Repr, DecidableEq

/-- The loop of src/main.py:334-337: scan the data rows for one whose first
cell equals `worker_id`; indexing `row[0]` into an empty row raises
`IndexError`. -/
def findWorkerRow (dataRows : List Row) (worker_id : String) :
    Except PyErr (Option Row) :=
  match dataRows with
  | [] => Except.ok none
  | row :: rest =>
    match row with
    | [] => Except.error PyErr.indexError
    | c0 :: _ =>
        if c0 == worker_id then Except.ok (some row)
        else findWorkerRow rest worker_id

/-- Embeds `GET /standby/{worker_id}` (src/main.py:328-339,
`get_worker_by_id`). The `HTTPException(404)` raised on no match is itself
inside the `try`, so the `except Exception` branch catches it and re-raises
it as a 500 whose detail embeds `str(e)`. `mirror` is the worksheet-open
plus `get_all_values` oracle. -/
def get_worker_by_id (mirror : Except PyErr (List Row)) (worker_id : String) :
    HResp WorkerBody :=
  let r : Except PyErr WorkerBody :=
    match mirror with
    | Except.error e => Except.error e
    | Except.ok rows =>
      match rows with
      | [] => Except.error PyErr.indexError
      | headers :: dataRows =>
        match findWorkerRow dataRows worker_id with
        | Except.error e => Except.error e
        | Except.ok (some row) =>
            Except.ok { status := "True", message := "Worker found",
                        results := headers.zip row }
        | Except.ok none => Except.error (PyErr.httpException 404 "Worker not found")
  match r with
  | Except.ok b => HResp.body b
  | Except.error e => HResp.httpEx 500 ("Failed to fetch data: " ++ pyErrStr e)

/-- The in-memory assignment log of src/main.py:355-361 (never persisted). -/
structure AssignLog where
  worker_id : String
  assigned_by : String
  assigned_outlet : String
  assignment_notes : String
  assigned_at : String
deriving Repr, DecidableEq

structure AssignBody where
  status : String
  message : String
  assignment : AssignLog
deriving Repr, DecidableEq

/-- The loop of src/main.py:364-369: 1-based sheet row index (starting at 2)
of the first data row whose first cell equals `worker_id`. -/
def findWorkerIdx (dataRows : List Row) (worker_id : String) (idx : Nat) :
    Except PyErr (Option Nat) :=
  match dataRows with
  | [] => Except.ok none
  | row :: rest =>
    match row with
    | [] => Except.error PyErr.indexError
    | c0 :: _ =>
        if c0 == worker_id then Except.ok (some idx)
        else findWorkerIdx rest worker_id (idx + 1)

/-- Embeds `POST /standby/assign` (src/main.py:340-383,
`assign_standby_worker`). Returns the response together with the list of
`update_cell(row, col, value)` calls performed. On a match the handler
writes the marker to column `len(headers) + 1` of the matched row; on no
match it raises `HTTPException(404)` inside its own `try`, which the
`except Exception` converts to a 500. `nowIso` stands for
`datetime.utcnow().isoformat()`. -/
def assign_standby_worker (mirror : Except PyErr (List Row)) (nowIso : String)
    (worker_id assigned_by assigned_outlet assignment_notes : String) :
    HResp AssignBody × List (Nat × Nat × String) :=
  match mirror with
  | Except.error e => (HResp.httpEx 500 ("Failed to assign: " ++ pyErrStr e), [])
  | Except.ok rows =>
    match rows with
    | [] => (HResp.httpEx 500 ("Failed to assign: " ++ pyErrStr PyErr.indexError), [])
    | headers :: dataRows =>
      let assign_log : AssignLog :=
        { worker_id := worker_id, assigned_by := assigned_by,
          assigned_outlet := assigned_outlet, assignment_notes := assignment_notes,
          assigned_at := nowIso }
      match findWorkerIdx dataRows worker_id 2 with
      | Except.error e => (HResp.httpEx 500 ("Failed to assign: " ++ pyErrStr e), [])
      | Except.ok (some idx) =>
          (HResp.body { status := "True",
                        message := "Worker " ++ worker_id ++ " assigned successfully",
                        assignment := assign_log },
           [(idx, headers.length + 1, "✅ Assigned")])
      | Except.ok none =>
          (HResp.httpEx 500
             ("Failed to assign: " ++ pyErrStr (PyErr.httpException 404 "Worker not found")),
           [])

/-! ### Operation sequences over the user store (for the identifier claims) -/

/-- One store-mutating request against the `User` table. -/
inductive StoreOp where
  | create (name email contact outlet_role role user_status : String)
  | delete (id : Nat)
deriving Repr, DecidableEq

/-- The store component of running one request (sheet state irrelevant). -/
def applyOp (db : UserStore) : StoreOp → UserStore
  | StoreOp.create n e c o r u =>
    match storeCreateUser db n e c o r u with
    | Except.error _ => db
    | Except.ok (_, db2) => db2
  | StoreOp.delete i => (delete_user db [] i).2.1

def applyOps (db : UserStore) : List StoreOp → UserStore
  | [] => db
  | op :: rest => applyOps (applyOp db op) rest

/-- The identifiers the store hands out along a run (a create that hits the
unique-email constraint assigns none). -/
def assignedIds (db : UserStore) : List StoreOp → List Nat
  | [] => []
  | StoreOp.create n e c o r u :: rest =>
      if db.users.any (fun v => v.email == e) then
        assignedIds (applyOp db (StoreOp.create n e c o r u)) rest
      else
        db.nextId :: assignedIds (applyOp db (StoreOp.create n e c o r u)) rest
  | StoreOp.delete i :: rest => assignedIds (applyOp db (StoreOp.delete i)) rest

/-! ### Helper lemmas -/

theorem scanRows_eq_none (headers : Row) (rows : List Row) (target : String)
    (h : ∀ r ∈ rows, recordIdStr headers r ≠ target) :
    ∀ idx, scanRows headers rows target idx = none := by
  induction rows with
  | nil => intro idx; rfl
  | cons r rs ih =>
    intro idx
    have hr : (recordIdStr headers r == target) = false := by
      simpa using h r (by simp)
    have hrs : ∀ x ∈ rs, recordIdStr headers x ≠ target := fun x hx => h x (by simp [hx])
    simp [scanRows, hr, ih hrs]

theorem findWorkerRow_eq_none (dataRows : List Row) (wid : String)
    (h : ∀ r ∈ dataRows, ∃ c rest, r = c :: rest ∧ c ≠ wid) :
    findWorkerRow dataRows wid = Except.ok none := by
  induction dataRows with
  | nil => rfl
  | cons r rs ih =>
    obtain ⟨c, rest, hr, hne⟩ := h r (by simp)
    have hc : (c == wid) = false := by simpa using hne
    have hrs : ∀ x ∈ rs, ∃ c2 rest2, x = c2 :: rest2 ∧ c2 ≠ wid :=
      fun x hx => h x (by simp [hx])
    subst hr
    simp [findWorkerRow, hc, ih hrs]

theorem findWorkerIdx_eq_none (dataRows : List Row) (wid : String)
    (h : ∀ r ∈ dataRows, ∃ c rest, r = c :: rest ∧ c ≠ wid) :
    ∀ idx, findWorkerIdx dataRows wid idx = Except.ok none := by
  induction dataRows with
  | nil => intro idx; rfl
  | cons r rs ih =>
    intro idx
    obtain ⟨c, rest, hr, hne⟩ := h r (by simp)
    have hc : (c == wid) = false := by simpa using hne
    have hrs : ∀ x ∈ rs, ∃ c2 rest2, x = c2 :: rest2 ∧ c2 ≠ wid :=
      fun x hx => h x (by simp [hx])
    subst hr
    simp [findWorkerIdx, hc, ih hrs]

/-! ### Claims -/

/-- C1: for every valid user creation via POST /add_new_users, when the
mirror append raises after the store commit, the error is not caught (the
request ends in an unhandled server error), the committed record stays in
the store, and the sheet is unchanged. -/
theorem C1_create_mirror_error_propagates
    (db : UserStore) (sheetD : SheetData) (e : String)
    (name email contact outlet_role role user_status : String)
    (hvalid : db.users.any (fun v => v.email == email) = false) :
    create_user db sheetD (Except.error e) name email contact outlet_role role user_status =
      (HResp.unhandled e,
       { users := db.users ++
           [{ id := db.nextId, name := name, email := email, contact := contact,
              outlet_role := outlet_role, role := role, user_status := user_status }],
         nextId := db.nextId + 1 },
       sheetD) := by
  simp [create_user, storeCreateUser, hvalid]

theorem C1_witness :
    (initialUserStore.users.any (fun v => v.email == "al@x.com") = false) ∧
    create_user initialUserStore [] (Except.error "APIError") "Al" "al@x.com" "1" "o" "r" "active" =
      (HResp.unhandled "APIError",
       { users := [{ id := 1, name := "Al", email := "al@x.com", contact := "1",
                     outlet_role := "o", role := "r", user_status := "active" }],
         nextId := 2 },
       []) :=
  ⟨by decide,
   C1_create_mirror_error_propagates initialUserStore [] "APIError"
     "Al" "al@x.com" "1" "o" "r" "active" (by decide)⟩

/-- C2: for every valid standby-worker creation via POST /standby/add, the
response is the success body (status `"True"`) echoing the created worker,
whatever the mirror oracle did; and when the mirror raised, the sheet is
left untouched (the error was only logged). -/
theorem C2_standby_mirror_error_swallowed
    (db : StandbyStore) (sheetD : SheetData) (mirror : Except String Unit)
    (name contact roles outlet user_status : String) (days_available : Int)
    (availability_date : String) (pd : Nat × Nat × Nat)
    (hdate : parseDateYMD availability_date = some pd) :
    (add_to_standby_form db sheetD mirror name contact roles outlet user_status
        days_available availability_date).1 =
      HResp.body { status := "True", message := "Worker added to standby",
                   results := some { id := db.nextId, name := name, contact := contact,
                                     roles := roles, outlet := outlet,
                                     user_status := user_status,
                                     days_available := days_available,
                                     availability_date := isoDate pd } } ∧
    (∀ e, mirror = Except.error e →
      (add_to_standby_form db sheetD mirror name contact roles outlet user_status
          days_available availability_date).2 =
        ({ workers := db.workers ++
             [{ id := db.nextId, name := name, contact := contact, roles := roles,
                outlet := outlet, user_status := user_status,
                days_available := days_available, availability_date := pd }],
           nextId := db.nextId + 1 }, sheetD)) := by
  constructor
  · simp [add_to_standby_form, hdate]
  · intro e he
    subst he
    simp [add_to_standby_form, hdate]

theorem C2_witness :
    parseDateYMD "2025-05-13" = some (2025, 5, 13) ∧
    (add_to_standby_form { workers := [], nextId := 1 } [] (Except.error "APIError")
        "Bo" "1" "cook" "east" "Available" 3 "2025-05-13").1 =
      HResp.body { status := "True", message := "Worker added to standby",
                   results := some { id := 1, name := "Bo", contact := "1",
                                     roles := "cook", outlet := "east",
                                     user_status := "Available", days_available := 3,
                                     availability_date := "2025-05-13" } } :=
  ⟨by decide,
   (C2_standby_mirror_error_swallowed { workers := [], nextId := 1 } [] (Except.error "APIError")
      "Bo" "1" "cook" "east" "Available" 3 "2025-05-13" (2025, 5, 13) (by decide)).1⟩

/-- C3: updating a user that exists in the store but whose identifier
matches no mirror record leaves the sheet exactly as it was, raises nothing,
and reports overall success with status `"True"`. -/
theorem C3_update_missing_mirror_row_is_silent_noop
    (db : UserStore) (sheetD : SheetData) (id : Nat) (u0 : UserRec)
    (name email contact outlet_role role user_status : String)
    (hfind : db.users.find? (fun u => u.id == id) = some u0)
    (hmail : db.users.any (fun v => !(v.id == u0.id) && v.email == email) = false)
    (hmiss : ∀ r ∈ sheetD.drop 1, recordIdStr (sheetD.headD []) r ≠ toString id) :
    (update_user db sheetD id name email contact outlet_role role user_status).2.2 = sheetD ∧
    (update_user db sheetD id name email contact outlet_role role user_status).1 =
      HResp.body { status := "True", message := "User updated",
                   results := some { u0 with
                                       name := name,
                                       email := email,
                                       contact := contact,
                                       outlet_role := outlet_role,
                                       role := role,
                                       user_status := user_status } } := by
  have hid : u0.id = id := by
    have := List.find?_some hfind
    simpa using this
  rw [hid] at hmail
  have hscan : scanRows (sheetD.headD []) (sheetD.drop 1) (toString id) 2 = none :=
    scanRows_eq_none _ _ _ hmiss 2
  refine ⟨?_, ?_⟩ <;>
    simp only [update_user, hfind, hid, hmail, Bool.false_eq_true, if_false, hscan]

theorem C3_witness :
    (([{ id := 5, name := "Al", email := "al@x.com", contact := "1", outlet_role := "o",
         role := "r", user_status := "active" }] : List UserRec).find? (fun u => u.id == 5) =
      some { id := 5, name := "Al", email := "al@x.com", contact := "1", outlet_role := "o",
             role := "r", user_status := "active" }) ∧
    (update_user { users := [{ id := 5, name := "Al", email := "al@x.com", contact := "1",
                               outlet_role := "o", role := "r", user_status := "active" }],
                   nextId := 6 }
        [["id", "name"], ["7", "Bo"]] 5 "Al2" "al@x.com" "2" "o2" "r2" "inactive").2.2 =
      [["id", "name"], ["7", "Bo"]] := by
  refine ⟨by decide, ?_⟩
  exact (C3_update_missing_mirror_row_is_silent_noop
    { users := [{ id := 5, name := "Al", email := "al@x.com", contact := "1",
                  outlet_role := "o", role := "r", user_status := "active" }], nextId := 6 }
    [["id", "name"], ["7", "Bo"]] 5
    { id := 5, name := "Al", email := "al@x.com", contact := "1", outlet_role := "o",
      role := "r", user_status := "active" }
    "Al2" "al@x.com" "2" "o2" "r2" "inactive" (by decide) (by decide) (by decide)).1

/-- C5: deleting an existing user removes every record with that identifier
from the store, performs no mirror write (the sheet value is returned
unchanged), and confirms the deletion. -/
theorem C5_delete_leaves_mirror_untouched
    (db : UserStore) (sheetD : SheetData) (id : Nat) (u0 : UserRec)
    (hfind : db.users.find? (fun u => u.id == id) = some u0) :
    (delete_user db sheetD id).2.2 = sheetD ∧
    (∀ v ∈ (delete_user db sheetD id).2.1.users, v.id ≠ id) ∧
    (delete_user db sheetD id).1 =
      HResp.body { status := "True",
                   message := "User \x27" ++ toString id ++ "\x27 deleted",
                   results := none } := by
  refine ⟨by simp [delete_user, hfind], ?_, by simp [delete_user, hfind]⟩
  intro v hv
  simp only [delete_user, hfind] at hv
  have := (List.mem_filter.1 hv).2
  simpa using this

theorem C5_witness :
    (([{ id := 5, name := "Al", email := "al@x.com", contact := "1", outlet_role := "o",
         role := "r", user_status := "active" }] : List UserRec).find? (fun u => u.id == 5) =
      some { id := 5, name := "Al", email := "al@x.com", contact := "1", outlet_role := "o",
             role := "r", user_status := "active" }) ∧
    (delete_user { users := [{ id := 5, name := "Al", email := "al@x.com", contact := "1",
                               outlet_role := "o", role := "r", user_status := "active" }],
                   nextId := 6 }
        [["id", "name"], ["5", "Al"]] 5).2.2 = [["id", "name"], ["5", "Al"]] :=
  ⟨by decide,
   (C5_delete_leaves_mirror_untouched
      { users := [{ id := 5, name := "Al", email := "al@x.com", contact := "1",
                    outlet_role := "o", role := "r", user_status := "active" }], nextId := 6 }
      [["id", "name"], ["5", "Al"]] 5
      { id := 5, name := "Al", email := "al@x.com", contact := "1", outlet_role := "o",
        role := "r", user_status := "active" } (by decide)).1⟩

/-- C6: a `GET /upcoming bookings/{sheet_name}` request whose (lowercased)
name is not mapped to a gid returns HTTP 400, for every network oracle: the
`ValueError` from `get_csv_url` is caught before the network is touched. -/
theorem C6_unknown_sheet_is_client_error
    (sheet_name : String)
    (hmiss : (GID_MAP.lookup (pyLower sheet_name)).getD "" = "")
    (net : String → Except PyErr CsvTable) :
    fetch_google_sheet net sheet_name = HResp.httpEx 400 "Invalid sheet name" := by
  simp [fetch_google_sheet, get_csv_url, hmiss]

theorem C6_witness :
    ((GID_MAP.lookup (pyLower "not-a-real-sheet")).getD "" = "") ∧
    fetch_google_sheet (fun _ => Except.error (PyErr.other "connection reset"))
        "not-a-real-sheet" =
      HResp.httpEx 400 "Invalid sheet name" :=
  ⟨by decide,
   C6_unknown_sheet_is_client_error "not-a-real-sheet" (by decide)
     (fun _ => Except.error (PyErr.other "connection reset"))⟩

/-- C7: a `POST /standby/add` whose `availability_date` does not parse as
`YYYY-MM-DD` gets HTTP 400, and both the store and the sheet are exactly as
before: the validation runs before any write. Stated for ASCII dates, where
`parseDateYMD` coincides with the interpreter's `strptime` (the parser's
`\d` classes match interpreter-dependent non-ASCII digit sets). -/
theorem C7_bad_date_rejected_before_store_write
    (db : StandbyStore) (sheetD : SheetData) (mirror : Except String Unit)
    (name contact roles outlet user_status : String) (days_available : Int)
    (availability_date : String)
    (hascii : isAsciiStr availability_date = true)
    (hdate : parseDateYMD availability_date = none) :
    add_to_standby_form db sheetD mirror name contact roles outlet user_status
        days_available availability_date =
      (HResp.httpEx 400 "Invalid date format. Use YYYY-MM-DD", db, sheetD) := by
  simp [add_to_standby_form, hdate]

theorem C7_witness :
    isAsciiStr "13/05/2025" = true ∧
    parseDateYMD "13/05/2025" = none ∧
    add_to_standby_form { workers := [], nextId := 1 } [] (Except.ok ())
        "Bo" "1" "cook" "east" "Available" 3 "13/05/2025" =
      (HResp.httpEx 400 "Invalid date format. Use YYYY-MM-DD",
       { workers := [], nextId := 1 }, []) :=
  ⟨by decide, by decide,
   C7_bad_date_rejected_before_store_write { workers := [], nextId := 1 } [] (Except.ok ())
     "Bo" "1" "cook" "east" "Available" 3 "13/05/2025" (by decide) (by decide)⟩

/-- A concrete published-CSV snapshot with a row that the (dead) match logic
of the search handler would select for the term `"alice"`. -/
def searchCsvSample : CsvTable :=
  { headers := ["Name", "Email", "Worker Phone", "Outlet", "Roles", "Status", "Availability"],
    rows := [["Alice", "alice@x.com", "1", "east", "cook", "Available", "mon"]] }

/-- C4: the search endpoint never performs the documented case-insensitive
exact match. Even when the fetch succeeds and a row matches the term under
the comparison written at src/main.py:240-243 (`rowMatches`), the handler
returns HTTP 500: line 237 reads the unbound name `query` (the parameter is
`search`), so a `NameError` is raised before any row is examined and the
generic `except` re-raises it as a 500. -/
theorem C4_search_always_raises_name_error :
    rowMatches searchCsvSample.headers (searchCsvSample.rows.headD []) "alice" = true ∧
    search_user_by_email_or_name (Except.ok searchCsvSample) "alice" =
      HResp.httpEx 500 "name \x27query\x27 is not defined" := by
  constructor
  · decide
  · rfl

/-- C8: login succeeds with status `"True"` and a nonempty token exactly
when the submitted credentials equal a stored admin row; any mismatch gets
the plain failure body with no token, still as a normal (non-error)
response (the handler returns a body in both branches, so the transport
status is a success status by construction of `login`). -/
theorem C8_login_body_semantics (admins : List AdminRec) (email password : String) :
    ((∃ a ∈ admins, a.email = email ∧ a.password = password) →
       (login admins email password).status = "True" ∧
       ∃ t, (login admins email password).access_token = some t ∧ t ≠ "") ∧
    ((∀ a ∈ admins, ¬(a.email = email ∧ a.password = password)) →
       login admins email password =
         { status := "False", message := "Invalid credentials",
           access_token := none, token_type := none }) := by
  constructor
  · intro hex
    have hsome : (admins.find? (fun a => a.email == email && a.password == password)).isSome := by
      rw [List.find?_isSome]
      obtain ⟨a, ha, h1, h2⟩ := hex
      exact ⟨a, ha, by simp [h1, h2]⟩
    obtain ⟨a, hfind⟩ := Option.isSome_iff_exists.1 hsome
    refine ⟨by simp [login, hfind], create_access_token a.email, by simp [login, hfind], ?_⟩
    intro hempty
    have hdata := congrArg String.data hempty
    have hcons : ('j' :: ("wt." ++ a.email ++ ".HS256").data) = ([] : List Char) := hdata
    exact List.noConfusion hcons
  · intro hall
    have hnone : admins.find? (fun a => a.email == email && a.password == password) = none := by
      rw [List.find?_eq_none]
      intro a ha
      have := hall a ha
      simp only [Bool.and_eq_true, beq_iff_eq]
      tauto
    simp [login, hnone]

theorem C8_witness :
    ((∃ a ∈ [({ email := "admin@gmail.com", password := "admin123" } : AdminRec)],
        a.email = "admin@gmail.com" ∧ a.password = "admin123") ∧
     (login [{ email := "admin@gmail.com", password := "admin123" }]
        "admin@gmail.com" "admin123").status = "True") ∧
    ((∀ a ∈ [({ email := "admin@gmail.com", password := "admin123" } : AdminRec)],
        ¬(a.email = "admin@gmail.com" ∧ a.password = "wrong")) ∧
     login [{ email := "admin@gmail.com", password := "admin123" }] "admin@gmail.com" "wrong" =
       { status := "False", message := "Invalid credentials",
         access_token := none, token_type := none }) := by
  constructor
  · refine ⟨⟨{ email := "admin@gmail.com", password := "admin123" }, by simp⟩, ?_⟩
    exact ((C8_login_body_semantics [{ email := "admin@gmail.com", password := "admin123" }]
      "admin@gmail.com" "admin123").1
        ⟨{ email := "admin@gmail.com", password := "admin123" }, by simp⟩).1
  · refine ⟨by simp, ?_⟩
    exact (C8_login_body_semantics [{ email := "admin@gmail.com", password := "admin123" }]
      "admin@gmail.com" "wrong").2 (by simp)

/-- C10: when no data row of the standby sheet starts with the requested
worker identifier, both `GET /standby/{worker_id}` and
`POST /standby/assign` answer HTTP 500 with a `Failed to ...` detail, not a
404: the `HTTPException(404)` each handler raises sits inside its own `try`
and the generic `except Exception` re-raises it as a 500. -/
theorem C10_missing_worker_becomes_500
    (headers : Row) (dataRows : List Row)
    (nowIso worker_id assigned_by assigned_outlet assignment_notes : String)
    (h : ∀ r ∈ dataRows, ∃ c rest, r = c :: rest ∧ c ≠ worker_id) :
    get_worker_by_id (Except.ok (headers :: dataRows)) worker_id =
      HResp.httpEx 500 "Failed to fetch data: 404: Worker not found" ∧
    (assign_standby_worker (Except.ok (headers :: dataRows)) nowIso worker_id
        assigned_by assigned_outlet assignment_notes).1 =
      HResp.httpEx 500 "Failed to assign: 404: Worker not found" := by
  constructor
  · simp only [get_worker_by_id, findWorkerRow_eq_none dataRows worker_id h]
    rfl
  · simp only [assign_standby_worker, findWorkerIdx_eq_none dataRows worker_id h 2]
    rfl

theorem C10_witness :
    (∀ r ∈ [["7", "Bo", "1"]], ∃ c rest, r = c :: rest ∧ c ≠ "9") ∧
    get_worker_by_id (Except.ok [["id", "name", "contact"], ["7", "Bo", "1"]]) "9" =
      HResp.httpEx 500 "Failed to fetch data: 404: Worker not found" := by
  refine ⟨?_, ?_⟩
  · intro r hr
    simp only [List.mem_singleton] at hr
    exact ⟨"7", ["Bo", "1"], by rw [hr], by decide⟩
  · exact (C10_missing_worker_becomes_500 ["id", "name", "contact"] [["7", "Bo", "1"]]
      "2025-05-13T00:00:00" "9" "admin" "east" ""
      (fun r hr => by
        simp only [List.mem_singleton] at hr
        exact ⟨"7", ["Bo", "1"], by rw [hr], by decide⟩)).1

theorem storeBound_applyOp (db : UserStore) (op : StoreOp)
    (h : ∀ u ∈ db.users, u.id < db.nextId) :
    ∀ u ∈ (applyOp db op).users, u.id < (applyOp db op).nextId := by
  cases op with
  | create n e c o r u =>
    rcases hc : db.users.any (fun v => v.email == e) with _ | _
    · intro x hx
      simp only [applyOp, storeCreateUser, hc, Bool.false_eq_true, if_false] at hx ⊢
      rcases List.mem_append.1 hx with hold | hnew
      · exact Nat.lt_trans (h x hold) (Nat.lt_succ_self _)
      · simp only [List.mem_singleton] at hnew
        subst hnew
        exact Nat.lt_succ_self _
    · intro x hx
      simp only [applyOp, storeCreateUser, hc, if_true] at hx ⊢
      exact h x hx
  | delete i =>
    intro x hx
    simp only [applyOp, delete_user] at hx ⊢
    rcases hf : db.users.find? (fun v => v.id == i) with _ | v
    · simp only [hf] at hx ⊢
      exact h x hx
    · simp only [hf] at hx ⊢
      exact h x (List.mem_filter.1 hx).1

theorem storeBound_applyOps (ops : List StoreOp) (db : UserStore)
    (h : ∀ u ∈ db.users, u.id < db.nextId) :
    ∀ u ∈ (applyOps db ops).users, u.id < (applyOps db ops).nextId := by
  induction ops generalizing db with
  | nil => exact h
  | cons op rest ih => exact ih _ (storeBound_applyOp db op h)

theorem nextId_mono_applyOp (db : UserStore) (op : StoreOp) :
    db.nextId ≤ (applyOp db op).nextId := by
  cases op with
  | create n e c o r u =>
    rcases hc : db.users.any (fun v => v.email == e) with _ | _
    · simp only [applyOp, storeCreateUser, hc, Bool.false_eq_true, if_false]
      exact Nat.le_succ _
    · simp only [applyOp, storeCreateUser, hc, if_true]
      exact Nat.le_refl _
  | delete i =>
    simp only [applyOp, delete_user]
    rcases hf : db.users.find? (fun v => v.id == i) with _ | v
    · simp only [hf]
      exact Nat.le_refl _
    · simp only [hf]
      exact Nat.le_refl _

theorem nextId_mono_applyOps (ops : List StoreOp) (db : UserStore) :
    db.nextId ≤ (applyOps db ops).nextId := by
  induction ops generalizing db with
  | nil => exact Nat.le_refl _
  | cons op rest ih =>
    exact Nat.le_trans (nextId_mono_applyOp db op) (ih (applyOp db op))

theorem assignedIds_lt_final (ops : List StoreOp) (db : UserStore) :
    ∀ a ∈ assignedIds db ops, a < (applyOps db ops).nextId := by
  induction ops generalizing db with
  | nil => intro a ha; exact absurd ha (List.not_mem_nil a)
  | cons op rest ih =>
    intro a ha
    cases op with
    | create n e c o r u =>
      rcases hc : db.users.any (fun v => v.email == e) with _ | _
      · simp only [assignedIds, hc, Bool.false_eq_true, if_false, List.mem_cons] at ha
        rcases ha with rfl | ha
        · have h1 : db.nextId < (applyOp db (StoreOp.create n e c o r u)).nextId := by
            simp only [applyOp, storeCreateUser, hc, Bool.false_eq_true, if_false]
            exact Nat.lt_succ_self _
          exact Nat.lt_of_lt_of_le h1 (nextId_mono_applyOps rest _)
        · exact ih _ a ha
      · simp only [assignedIds, hc, if_true] at ha
        exact ih _ a ha
    | delete i =>
      simp only [assignedIds] at ha
      exact ih _ a ha

/-- C9: at any store state reachable from the empty store by create/delete
requests, a valid `POST /add_new_users` assigns an identifier that differs
from every identifier currently in the store, is strictly greater than
every identifier the store ever assigned along the run, and is written (via
`str`) as the first cell of the appended mirror row, the same value the
response body echoes back. Identifier assignment is modelled from the spec
(spec sections 4.1 and 8), since the storage engine is not part of src/. -/
theorem C9_created_id_unique_increasing_and_mirrored
    (ops : List StoreOp) (sheetD : SheetData)
    (name email contact outlet_role role user_status : String)
    (a : Nat) (u : UserRec)
    (hvalid : (applyOps initialUserStore ops).users.any (fun v => v.email == email) = false)
    (ha : a ∈ assignedIds initialUserStore ops)
    (hu : u ∈ (applyOps initialUserStore ops).users) :
    a < (applyOps initialUserStore ops).nextId ∧
    u.id ≠ (applyOps initialUserStore ops).nextId ∧
    (create_user (applyOps initialUserStore ops) sheetD (Except.ok ())
        name email contact outlet_role role user_status).2.2 =
      sheetD ++ [[toString (applyOps initialUserStore ops).nextId, name, email, contact,
                  outlet_role, role, user_status]] ∧
    (create_user (applyOps initialUserStore ops) sheetD (Except.ok ())
        name email contact outlet_role role user_status).1 =
      HResp.body { status := "True", message := "User added",
                   results := some { id := (applyOps initialUserStore ops).nextId,
                                     name := name, email := email, contact := contact,
                                     outlet_role := outlet_role, role := role,
                                     user_status := user_status } } := by
  have hinit : ∀ v ∈ initialUserStore.users, v.id < initialUserStore.nextId := by
    intro v hv
    exact absurd hv (List.not_mem_nil v)
  refine ⟨assignedIds_lt_final ops initialUserStore a ha, ?_, ?_, ?_⟩
  · exact Nat.ne_of_lt (storeBound_applyOps ops initialUserStore hinit u hu)
  · simp only [create_user, storeCreateUser, hvalid, Bool.false_eq_true, if_false, appendRow]
  · simp only [create_user, storeCreateUser, hvalid, Bool.false_eq_true, if_false]

/-- A run that creates two users, then deletes the second: identifiers 1 and
2 were assigned, only user 1 remains, and the next creation gets id 3. -/
def ops0 : List StoreOp :=
  [StoreOp.create "Al" "al@x.com" "1" "o" "r" "active",
   StoreOp.create "Bo" "bo@x.com" "2" "o" "r" "active",
   StoreOp.delete 2]

theorem C9_witness :
    ((applyOps initialUserStore ops0).users.any (fun v => v.email == "cy@x.com") = false) ∧
    (2 ∈ assignedIds initialUserStore ops0) ∧
    ({ id := 1, name := "Al", email := "al@x.com", contact := "1", outlet_role := "o",
       role := "r", user_status := "active" } : UserRec) ∈ (applyOps initialUserStore ops0).users ∧
    2 < (applyOps initialUserStore ops0).nextId ∧
    ({ id := 1, name := "Al", email := "al@x.com", contact := "1", outlet_role := "o",
       role := "r", user_status := "active" } : UserRec).id ≠ (applyOps initialUserStore ops0).nextId ∧
    (create_user (applyOps initialUserStore ops0) [] (Except.ok ())
        "Cy" "cy@x.com" "3" "o" "r" "active").2.2 =
      [[toString (applyOps initialUserStore ops0).nextId, "Cy", "cy@x.com", "3", "o", "r", "active"]] := by
  have h := C9_created_id_unique_increasing_and_mirrored ops0 []
    "Cy" "cy@x.com" "3" "o" "r" "active" 2
    { id := 1, name := "Al", email := "al@x.com", contact := "1", outlet_role := "o",
      role := "r", user_status := "active" }
    (by decide) (by decide) (by decide)
  exact ⟨by decide, by decide, by decide, h.1, h.2.1, h.2.2.1⟩

end AdminPanel
